import Mathlib

/-!
Verification of the payment-gated task lifecycle of the agentbounty repository.

The development shallowly embeds, directly from the TypeScript source:

* the pricing engine (`PricingEngine.calculate` in `src/agent/src/a2a/client.ts`),
* the payment verifier (`X402PaymentHandler.verifyPayment` in
  `src/agent/src/payments/x402.ts`) together with the viem helpers
  `parseUnits`/`formatUnits` it calls,
* the task store (`TaskQueue` in `src/agent/src/queue/task-queue.ts`),
  in both its in-memory mode and its redis-backed mode, and
* the orchestrator transitions (`AgentCore.handlePaymentVerification` and
  `AgentCore.executeTask` in the core module).

JavaScript `number` arithmetic in the pricing engine is modelled over `ℚ`
(all constants involved are small decimal fractions); `Math.round x` is
`⌊x + 1/2⌋`, which is its behaviour on the non-negative values that occur.
`Date` values are modelled as epoch-millisecond naturals;
`Date.toISOString` / `new Date(iso)` form a bijection on millisecond
timestamps, so date (de)serialization is modelled by the decimal rendering
`natToDec` / `decToNat`, which is likewise injective with explicit inverse.
-/

namespace AgentBounty

/-! ### Decimal strings

`decToNat` is the value of a digit string (the behaviour of JavaScript
`BigInt` on such a string); `natToDec` renders a natural in decimal (the
behaviour of `Number.prototype.toString` / `BigInt.prototype.toString` on
naturals).  They are defined with explicit fuel so that the kernel can
evaluate them on concrete inputs. -/

def decToNatStep (a : Nat) (c : Char) : Nat := a * 10 + (c.toNat - 48)

def decToNat (s : String) : Nat := s.data.foldl decToNatStep 0

def digitChar : Nat → Char
  | 0 => '0' | 1 => '1' | 2 => '2' | 3 => '3' | 4 => '4'
  | 5 => '5' | 6 => '6' | 7 => '7' | 8 => '8' | _ => '9'

def toDecChars : Nat → Nat → List Char → List Char
  | 0, _, acc => acc
  | f+1, n, acc =>
    if n < 10 then digitChar n :: acc
    else toDecChars f (n / 10) (digitChar (n % 10) :: acc)

def natToDec (n : Nat) : String := String.mk (toDecChars (n+1) n [])

lemma digitChar_toNat (d : Nat) (hd : d < 10) : (digitChar d).toNat - 48 = d := by
  interval_cases d <;> rfl

lemma toDecChars_append (f : Nat) :
    ∀ n acc, toDecChars f n acc = toDecChars f n [] ++ acc := by
  induction f with
  | zero => intro n acc; simp [toDecChars]
  | succ f ih =>
    intro n acc
    by_cases h : n < 10
    · simp [toDecChars, h]
    · rw [toDecChars, toDecChars, if_neg h, if_neg h, ih (n / 10) (digitChar (n % 10) :: acc),
        ih (n / 10) [digitChar (n % 10)], List.append_assoc]
      rfl

lemma toDecChars_foldl (f : Nat) :
    ∀ n a, n < 10 ^ f →
      List.foldl decToNatStep a (toDecChars f n []) =
        a * 10 ^ (toDecChars f n []).length + n := by
  induction f with
  | zero => intro n a h; simp at h; simp [toDecChars, h]
  | succ f ih =>
    intro n a h
    by_cases h10 : n < 10
    · simp [toDecChars, h10, decToNatStep, digitChar_toNat n h10]
    · have hdiv : n / 10 < 10 ^ f := by
        rw [Nat.div_lt_iff_lt_mul (by norm_num)]
        calc n < 10 ^ (f + 1) := h
        _ = 10 ^ f * 10 := by ring
      rw [toDecChars, if_neg h10, toDecChars_append]
      rw [List.foldl_append, ih (n / 10) a hdiv]
      simp only [List.length_append, List.foldl_cons, List.foldl_nil, List.length_cons,
        List.length_nil]
      rw [decToNatStep, digitChar_toNat (n % 10) (Nat.mod_lt n (by norm_num))]
      rw [Nat.add_mul, Nat.mul_comm (n / 10) 10, pow_succ]
      have := Nat.div_add_mod n 10
      ring_nf
      omega

lemma self_lt_ten_pow_succ (n : Nat) : n < 10 ^ (n + 1) := by
  calc n < 2 ^ n := Nat.lt_two_pow n
  _ ≤ 10 ^ n := Nat.pow_le_pow_left (by norm_num) n
  _ ≤ 10 ^ (n + 1) := Nat.pow_le_pow_right (by norm_num) (Nat.le_succ n)

theorem decToNat_natToDec (n : Nat) : decToNat (natToDec n) = n := by
  have h := toDecChars_foldl (n + 1) n 0 (self_lt_ten_pow_succ n)
  simpa [decToNat, natToDec] using h

lemma toDecChars_ne_nil (f : Nat) (n : Nat) : toDecChars (f + 1) n [] ≠ [] := by
  by_cases h : n < 10
  · simp [toDecChars, h]
  · rw [toDecChars, if_neg h, toDecChars_append]
    simp

theorem natToDec_ne_empty (n : Nat) : natToDec n ≠ "" := by
  have h := toDecChars_ne_nil n n
  intro hc
  apply h
  have : (natToDec n).data = ("" : String).data := by rw [hc]
  simpa [natToDec] using this

/-! ### JavaScript string helpers

Kernel-evaluable models of the JS string methods the source uses:
`String.prototype.split` with a one-character separator (empty pieces are
kept, `"".split(x) = [""]`), `String.prototype.replace` with a string
pattern (replaces the first occurrence only), and ASCII
`String.prototype.toLowerCase` (every string it is applied to in the
verifier is an ASCII hex address). -/

def lowerChar (c : Char) : Char :=
  if 65 ≤ c.toNat ∧ c.toNat ≤ 90 then Char.ofNat (c.toNat + 32) else c

def jsToLower (s : String) : String := String.mk (s.data.map lowerChar)

def jsSplitAux (sep : Char) : List Char → List Char → List String
  | [], acc => [String.mk acc.reverse]
  | c :: cs, acc =>
    if c == sep then String.mk acc.reverse :: jsSplitAux sep cs []
    else jsSplitAux sep cs (c :: acc)

def jsSplit (s : String) (sep : Char) : List String := jsSplitAux sep s.data []

def jsReplaceFirstAux (pat repl : List Char) : List Char → List Char
  | [] => []
  | c :: cs =>
    if pat.isPrefixOf (c :: cs) then repl ++ (c :: cs).drop pat.length
    else c :: jsReplaceFirstAux pat repl cs

def jsReplaceFirst (s pat repl : String) : String :=
  String.mk (jsReplaceFirstAux pat.data repl.data s.data)

/-! ### viem `parseUnits` / `formatUnits`

Embedded from viem's published implementation, which the payment handler
calls with `USDC_DECIMALS = 6`.  Only non-negative decimal strings are in
scope (every amount the handler passes is one); `formatUnits` notably trims
trailing zeros from the fractional part. -/

def trimTrailingZeros (s : String) : String :=
  String.mk ((s.data.reverse.dropWhile (fun c => c == '0')).reverse)

def padStartZeros (s : String) (n : Nat) : String :=
  String.mk (List.replicate (n - s.length) '0' ++ s.data)

def padEndZeros (s : String) (n : Nat) : String :=
  String.mk (s.data ++ List.replicate (n - s.length) '0')

def parseUnits (value : String) (decimals : Nat) : Nat :=
  let parts := jsSplit value '.'
  let integer := parts.getD 0 ""
  let fraction := parts.getD 1 "0"
  let fraction := trimTrailingZeros fraction
  if fraction.length ≤ decimals then
    -- BigInt(integer + fraction.padEnd(decimals, '0'))
    decToNat (integer ++ padEndZeros fraction decimals)
  else
    -- round off the fraction, half away from zero, at digit `decimals`
    let k := fraction.length - decimals
    (decToNat (integer ++ fraction) + 5 * 10 ^ (k - 1)) / 10 ^ k

def formatUnits (value : Nat) (decimals : Nat) : String :=
  let display := padStartZeros (natToDec value) decimals
  let integer := String.mk (display.data.take (display.length - decimals))
  let fraction := trimTrailingZeros (String.mk (display.data.drop (display.length - decimals)))
  (if integer = "" then "0" else integer) ++
    (if fraction = "" then "" else "." ++ fraction)

/-! ### Pricing engine (`PricingEngine.calculate`)

From `src/agent/src/a2a/client.ts`.  JS numbers are modelled over `ℚ`;
`Math.round` is `jsRound`. -/

structure PriceLine where
  item : String
  amount : ℚ
deriving DecidableEq, Repr

structure PriceResult where
  total : ℚ
  breakdown : List PriceLine
deriving DecidableEq, Repr

inductive Complexity
  | simple | medium | complex
deriving DecidableEq, Repr

def Complexity.toString : Complexity → String
  | .simple => "simple" | .medium => "medium" | .complex => "complex"

def BASE_PRICES (category : String) : Option ℚ :=
  if category = "research" then some 2
  else if category = "website" then some 15
  else if category = "writing" then some 5
  else if category = "code" then some 10
  else if category = "design" then some 20
  else if category = "other" then some 5
  else none

def COMPLEXITY_MULTIPLIERS : Complexity → ℚ
  | .simple => 1 | .medium => 3/2 | .complex => 5/2

def TOOL_COSTS (tool : String) : Option ℚ :=
  if tool = "playwright-mcp" then some (1/2)
  else if tool = "exa-mcp" then some (1/4)
  else if tool = "vercel-mcp" then some 1
  else if tool = "github-mcp" then some (1/2)
  else if tool = "dalle-mcp" then some 2
  else if tool = "polymarket-mcp" then some 0
  else none

/-- JavaScript `Math.round` on the non-negative rationals that occur here:
round half away from zero, i.e. `⌊x + 1/2⌋`. -/
def jsRound (x : ℚ) : ℚ := (Int.floor (x + 1/2) : ℤ)

/-- Embeds `BASE_PRICES[category] || BASE_PRICES.other`; no base price is `0`, so
the JS falsiness test coincides with the undefined test. -/
def basePriceFor (category : String) : ℚ := (BASE_PRICES category).getD 5

/-- Embeds `tool.replace('-mcp', '')` as used for the breakdown line item. -/
def stripMcp (tool : String) : String := jsReplaceFirst tool "-mcp" ""

def toolLineFor (tool : String) : Option PriceLine :=
  match TOOL_COSTS tool with
  | some c => if 0 < c then some { item := stripMcp tool, amount := c } else none
  | none => none

/-- The "extended output" amount:
`Math.round(extraTokens * 0.0001 * 100) / 100` with `extraTokens =
estimatedTokens - 4000`. -/
def tokenCostOf (estimatedTokens : Nat) : ℚ :=
  jsRound (((estimatedTokens - 4000 : Nat) : ℚ) * (1/10000) * 100) / 100

def sumAmounts : List PriceLine → ℚ
  | [] => 0
  | b :: bs => b.amount + sumAmounts bs

/-- Embeds `PricingEngine.calculate` (`src/agent/src/a2a/client.ts`). -/
def calculate (category : String) (complexity : Complexity)
    (estimatedTokens : Nat) (toolsRequired : List String) : PriceResult :=
  let basePrice := basePriceFor category
  let baseLine : PriceLine := { item := category ++ " base", amount := basePrice }
  let multiplier := COMPLEXITY_MULTIPLIERS complexity
  let complexityAdjustment := basePrice * (multiplier - 1)
  let complexityLines : List PriceLine :=
    if 0 < complexityAdjustment then
      [{ item := complexity.toString ++ " complexity", amount := complexityAdjustment }]
    else []
  let toolLines := toolsRequired.filterMap toolLineFor
  let extLines : List PriceLine :=
    if 4000 < estimatedTokens then
      (if 0 < tokenCostOf estimatedTokens then
        [{ item := "extended output", amount := tokenCostOf estimatedTokens }]
      else [])
    else []
  let breakdown := baseLine :: (complexityLines ++ toolLines ++ extLines)
  let total := jsRound (sumAmounts breakdown * 100) / 100
  let finalTotal := max total 1
  { total := finalTotal, breakdown := breakdown }

/-! ### Payment verifier (`X402PaymentHandler.verifyPayment`)

From `src/agent/src/payments/x402.ts`.  A transaction receipt carries a
status string and event logs; a log's `data` field is used only as
`BigInt(log.data)`, so it is modelled directly as the natural it denotes.
The ledger (viem `getTransactionReceipt`) is an explicit environment
`String → Option TxReceipt`; an absent receipt yields the structured
"Transaction not found" failure (in the source the throw from viem is
caught and every failure is returned, never thrown, so the embedding is a
total function into `PaymentVerification`). -/

structure TxLog where
  address : String
  topics : List String
  data : Nat
deriving DecidableEq, Repr

structure TxReceipt where
  status : String
  logs : List TxLog
deriving DecidableEq, Repr

structure PaymentVerification where
  valid : Bool
  sender : Option String := none
  amount : Option String := none
  error : Option String := none
deriving DecidableEq, Repr

def TRANSFER_SIG : String :=
  "0xddf252ad1be2c89b69c2b068fc378daa952ba7f163c4a11628f55a4df523b3ef"

def USDC_DECIMALS : Nat := 6

/-- The predicate of `receipt.logs.find(...)`: the log was emitted by the
configured stablecoin contract and its first topic is the Transfer event
signature. -/
def isTransferLog (usdcAddress : String) (log : TxLog) : Bool :=
  jsToLower log.address == jsToLower usdcAddress &&
    log.topics.get? 0 == some TRANSFER_SIG

/-- Embeds `` `0x${topics[i]?.slice(26)}` `` — JS renders a missing topic as the
string `"undefined"` inside the template literal. -/
def decodeTopicAddr (topics : List String) (i : Nat) : String :=
  "0x" ++ ((topics.get? i).map (fun t => t.drop 26)).getD "undefined"

def verifyPayment (getReceipt : String → Option TxReceipt)
    (usdcAddress accountAddress : String)
    (txHash : String) (expectedAmount : String) (expectedSender : Option String) :
    PaymentVerification :=
  match getReceipt txHash with
  | none => { valid := false, error := some "Transaction not found" }
  | some receipt =>
    if receipt.status ≠ "success" then
      { valid := false, error := some "Transaction failed" }
    else
      match receipt.logs.find? (isTransferLog usdcAddress) with
      | none => { valid := false, error := some "No USDC transfer found in transaction" }
      | some transferLog =>
        let sender := decodeTopicAddr transferLog.topics 1
        let recipient := decodeTopicAddr transferLog.topics 2
        let amount := transferLog.data
        if jsToLower recipient ≠ jsToLower accountAddress then
          { valid := false, error := some "Payment sent to wrong address" }
        else
          let expectedAmountWei := parseUnits expectedAmount USDC_DECIMALS
          if amount < expectedAmountWei then
            { valid := false,
              error := some ("Insufficient payment: received " ++
                formatUnits amount USDC_DECIMALS ++ " USDC, expected " ++
                expectedAmount ++ " USDC") }
          else
            match expectedSender with
            | some es =>
              if jsToLower sender ≠ jsToLower es then
                { valid := false, error := some "Payment from unexpected sender" }
              else
                { valid := true, sender := some sender,
                  amount := some (formatUnits amount USDC_DECIMALS) }
            | none =>
              { valid := true, sender := some sender,
                amount := some (formatUnits amount USDC_DECIMALS) }

/-! ### Task store (`TaskQueue`, `src/agent/src/queue/task-queue.ts`)

`Date` values are epoch-millisecond naturals (see the header comment).
`channel` is kept as a string (the TS union of four channel strings);
`status` is the five-state machine.  The redis hash written by
`serializeTask` always contains all seventeen fields, so it is modelled as
a record of strings; redis sets are modelled as insertion-ordered lists
without duplicates.  `randomUUID()` and `new Date()` are explicit
parameters of the operations that call them. -/

inductive TaskStatus
  | pending_payment | paid | in_progress | completed | failed
deriving DecidableEq, Repr

def statusToString : TaskStatus → String
  | .pending_payment => "pending_payment"
  | .paid => "paid"
  | .in_progress => "in_progress"
  | .completed => "completed"
  | .failed => "failed"

/-- Inverse of `statusToString` for strings read back from the store.  The
source does an unchecked cast (`data.status as Task['status']`); the store
only ever contains strings written by `serializeTask`, so the default
branch is unreachable. -/
def stringToStatus (s : String) : TaskStatus :=
  if s = "paid" then .paid
  else if s = "in_progress" then .in_progress
  else if s = "completed" then .completed
  else if s = "failed" then .failed
  else .pending_payment

structure Task where
  id : String
  status : TaskStatus
  channel : String
  channelMessageId : String
  senderId : String
  senderAddress : Option String := none
  description : String
  category : String
  priceUsdc : String
  paidTxHash : Option String := none
  paidAt : Option Nat := none
  startedAt : Option Nat := none
  completedAt : Option Nat := none
  deliverable : Option String := none
  error : Option String := none
  createdAt : Nat
  updatedAt : Nat
deriving DecidableEq, Repr

/-- Embeds `TaskUpdate = Partial<Omit<Task, 'id' | 'createdAt'>>`, restricted to
the fields the orchestrator and scheduler actually pass.  A `some` field is
a key present in the update object. -/
structure TaskUpdate where
  status : Option TaskStatus := none
  senderAddress : Option String := none
  paidTxHash : Option String := none
  paidAt : Option Nat := none
  startedAt : Option Nat := none
  completedAt : Option Nat := none
  deliverable : Option String := none
  error : Option String := none
deriving DecidableEq, Repr

/-- A key present in the update wins, otherwise the existing value is kept
(`{...existing, ...update}`). -/
def updField {α : Type} (u cur : Option α) : Option α :=
  match u with
  | some v => some v
  | none => cur

/-- Embeds `{...existing, ...update, updatedAt: new Date()}` in `updateTask`. -/
def applyUpdate (t : Task) (u : TaskUpdate) (now : Nat) : Task :=
  { t with
    status := u.status.getD t.status
    senderAddress := updField u.senderAddress t.senderAddress
    paidTxHash := updField u.paidTxHash t.paidTxHash
    paidAt := updField u.paidAt t.paidAt
    startedAt := updField u.startedAt t.startedAt
    completedAt := updField u.completedAt t.completedAt
    deliverable := updField u.deliverable t.deliverable
    error := updField u.error t.error
    updatedAt := now }

/-- The redis hash written by `serializeTask`: all fields rendered as
strings, absent optionals as `''`. -/
structure SerializedTask where
  id : String
  status : String
  channel : String
  channelMessageId : String
  senderId : String
  senderAddress : String
  description : String
  category : String
  priceUsdc : String
  paidTxHash : String
  paidAt : String
  startedAt : String
  completedAt : String
  deliverable : String
  error : String
  createdAt : String
  updatedAt : String
deriving DecidableEq, Repr

def serializeTask (task : Task) : SerializedTask :=
  { id := task.id
    status := statusToString task.status
    channel := task.channel
    channelMessageId := task.channelMessageId
    senderId := task.senderId
    senderAddress := task.senderAddress.getD ""
    description := task.description
    category := task.category
    priceUsdc := task.priceUsdc
    paidTxHash := task.paidTxHash.getD ""
    paidAt := (task.paidAt.map natToDec).getD ""
    startedAt := (task.startedAt.map natToDec).getD ""
    completedAt := (task.completedAt.map natToDec).getD ""
    deliverable := task.deliverable.getD ""
    error := task.error.getD ""
    createdAt := natToDec task.createdAt
    updatedAt := natToDec task.updatedAt }

def deserializeTask (data : SerializedTask) : Task :=
  { id := data.id
    status := stringToStatus data.status
    channel := data.channel
    channelMessageId := data.channelMessageId
    senderId := data.senderId
    senderAddress := if data.senderAddress = "" then none else some data.senderAddress
    description := data.description
    category := data.category
    priceUsdc := data.priceUsdc
    paidTxHash := if data.paidTxHash = "" then none else some data.paidTxHash
    paidAt := if data.paidAt = "" then none else some (decToNat data.paidAt)
    startedAt := if data.startedAt = "" then none else some (decToNat data.startedAt)
    completedAt := if data.completedAt = "" then none else some (decToNat data.completedAt)
    deliverable := if data.deliverable = "" then none else some data.deliverable
    error := if data.error = "" then none else some data.error
    createdAt := decToNat data.createdAt
    updatedAt := decToNat data.updatedAt }

/-- Association-list maps (JS `Map`, redis hashes keyed by string). -/
def alistGet {α : Type} (m : List (String × α)) (k : String) : Option α :=
  (m.find? (fun p => p.1 == k)).map (fun p => p.2)

def alistSet {α : Type} (m : List (String × α)) (k : String) (v : α) :
    List (String × α) :=
  match m with
  | [] => [(k, v)]
  | (k', v') :: rest =>
    if k' = k then (k, v) :: rest else (k', v') :: alistSet rest k v

/-- Add to a `Set`-valued index entry (`Set.add` / redis `sadd`). -/
def setAdd (l : List String) (x : String) : List String :=
  if l.contains x then l else l ++ [x]

def setRemove (l : List String) (x : String) : List String :=
  l.filter (fun y => y ≠ x)

def indexAdd (m : List (String × List String)) (k : String) (x : String) :
    List (String × List String) :=
  alistSet m k (setAdd ((alistGet m k).getD []) x)

def indexRemove (m : List (String × List String)) (k : String) (x : String) :
    List (String × List String) :=
  match alistGet m k with
  | none => m
  | some l => alistSet m k (setRemove l x)

/-- The combined state of a `TaskQueue` instance: the mode flag, the
in-memory maps, and (an abstraction of) the redis keyspace it uses. -/
structure QState where
  useInMemory : Bool
  inMemoryTasks : List (String × Task) := []
  inMemoryBySender : List (String × List String) := []
  inMemoryByStatus : List (String × List String) := []
  inMemoryQueue : List String := []
  redisHashes : List (String × SerializedTask) := []
  redisSenderSets : List (String × List String) := []
  redisStatusSets : List (String × List String) := []
  redisCreated : List (String × Nat) := []
  redisJobs : List String := []
deriving DecidableEq, Repr

structure CreateTaskData where
  channel : String
  channelMessageId : String
  senderId : String
  senderAddress : Option String := none
  description : String
  category : String
  priceUsdc : String
  status : Option TaskStatus := none
deriving DecidableEq, Repr

/-- Embeds `TaskQueue.createTask`; `id` is the fresh `randomUUID()`, `now` the
creation time. -/
def createTask (st : QState) (d : CreateTaskData) (id : String) (now : Nat) :
    QState × Task :=
  let task : Task :=
    { id := id
      status := d.status.getD .pending_payment
      channel := d.channel
      channelMessageId := d.channelMessageId
      senderId := d.senderId
      senderAddress := d.senderAddress
      description := d.description
      category := d.category
      priceUsdc := d.priceUsdc
      createdAt := now
      updatedAt := now }
  if st.useInMemory then
    ({ st with
        inMemoryTasks := alistSet st.inMemoryTasks id task
        inMemoryBySender := indexAdd st.inMemoryBySender d.senderId id
        inMemoryByStatus := indexAdd st.inMemoryByStatus (statusToString task.status) id },
      task)
  else
    ({ st with
        redisHashes := alistSet st.redisHashes ("task:" ++ id) (serializeTask task)
        redisSenderSets := indexAdd st.redisSenderSets ("tasks:sender:" ++ d.senderId) id
        redisStatusSets :=
          indexAdd st.redisStatusSets ("tasks:status:" ++ statusToString task.status) id
        redisCreated := alistSet st.redisCreated id now },
      task)

/-- Embeds `TaskQueue.getTask`. -/
def getTask (st : QState) (id : String) : Option Task :=
  if st.useInMemory then
    alistGet st.inMemoryTasks id
  else
    (alistGet st.redisHashes ("task:" ++ id)).map deserializeTask

/-- Embeds `TaskQueue.updateTask`. -/
def updateTask (st : QState) (id : String) (u : TaskUpdate) (now : Nat) :
    QState × Option Task :=
  match getTask st id with
  | none => (st, none)
  | some existing =>
    let updated := applyUpdate existing u now
    let statusChanged : Bool :=
      match u.status with
      | some s => s != existing.status
      | none => false
    if st.useInMemory then
      let st :=
        if statusChanged then
          { st with
              inMemoryByStatus :=
                indexAdd
                  (indexRemove st.inMemoryByStatus (statusToString existing.status) id)
                  (statusToString updated.status) id }
        else st
      ({ st with inMemoryTasks := alistSet st.inMemoryTasks id updated }, some updated)
    else
      let st :=
        if statusChanged then
          { st with
              redisStatusSets :=
                indexAdd
                  (indexRemove st.redisStatusSets
                    ("tasks:status:" ++ statusToString existing.status) id)
                  ("tasks:status:" ++ statusToString updated.status) id }
        else st
      ({ st with redisHashes := alistSet st.redisHashes ("task:" ++ id) (serializeTask updated) },
        some updated)

/-- Embeds `TaskQueue.enqueue` (in-memory list push / `queue.add`). -/
def enqueue (st : QState) (taskId : String) : QState :=
  if st.useInMemory then { st with inMemoryQueue := st.inMemoryQueue ++ [taskId] }
  else { st with redisJobs := st.redisJobs ++ [taskId] }

/-! ### Orchestrator (`AgentCore`)

`handlePaymentVerification` and `executeTask` from the core module.  The
ledger environment and the wallet/stablecoin addresses are explicit
parameters (the handler is constructed with `network = 'base'`).  The
external executor ("skill") outcome is an explicit parameter of
`executeTask`: `none` models no skill registered for the category (the
thrown "No skill found" error, caught by the handler), `some (.error e)` a
skill whose `execute` throws `e`, and `some (.ok d)` a skill returning
deliverable `d`.  The memory-store and agent-to-agent calls after a
successful execution are out-of-scope collaborators that do not touch the
task store and are modelled as no-ops. -/

structure AgentResponse where
  content : String
  taskId : Option String := none
deriving DecidableEq, Repr

/-- JS string interpolation of a possibly-undefined value. -/
def jsShow (o : Option String) : String := o.getD "undefined"

/-- Embeds `AgentCore.handlePaymentVerification`.  `content` is the incoming
message text (`PAYMENT:taskId:txHash`), `now` the time of the `new Date()`
recorded as `paidAt`. -/
def handlePaymentVerification (getReceipt : String → Option TxReceipt)
    (usdcAddress accountAddress : String)
    (st : QState) (content : String) (now : Nat) : QState × AgentResponse :=
  let parts := jsSplit content ':'
  if parts.length < 3 then
    (st, { content := "Invalid payment verification format." })
  else
    let taskId := parts.getD 1 ""
    let txHash := parts.getD 2 ""
    match getTask st taskId with
    | none => (st, { content := "Task " ++ taskId ++ " not found." })
    | some task =>
      let verification :=
        verifyPayment getReceipt usdcAddress accountAddress txHash task.priceUsdc none
      if verification.valid = false then
        (st, { content := "Payment verification failed: " ++ jsShow verification.error })
      else
        let (st, _) := updateTask st taskId
          { status := some .paid
            paidTxHash := some txHash
            paidAt := some now
            senderAddress := verification.sender } now
        let st := enqueue st taskId
        (st,
          { content := "✅ Payment verified! Your task is now in queue.\n\nTask ID: " ++
              taskId ++ "\nAmount: " ++ task.priceUsdc ++ " USDC\nTX: " ++
              txHash.take 10 ++ "...\n\nI\x27ll get started right away and reply when done!"
            taskId := some taskId })

/-- Embeds `AgentCore.executeTask`.  `task` is the snapshot the processor fetched
at dequeue time; `nowStart`/`nowEnd` are the two `new Date()` calls. -/
def executeTask (skillOutcome : Option (Except String String))
    (st : QState) (task : Task) (nowStart nowEnd : Nat) : QState :=
  let (st, _) := updateTask st task.id
    { status := some .in_progress, startedAt := some nowStart } nowStart
  match skillOutcome with
  | none =>
    (updateTask st task.id
      { status := some .failed
        error := some ("No skill found for category: " ++ task.category) } nowEnd).1
  | some (.error e) =>
    (updateTask st task.id { status := some .failed, error := some e } nowEnd).1
  | some (.ok deliverable) =>
    (updateTask st task.id
      { status := some .completed
        completedAt := some nowEnd
        deliverable := some deliverable } nowEnd).1

/-- One tick of the in-memory processor installed by
`TaskQueue.startProcessor`: shift the queue, fetch the task fresh from the
store, and invoke the handler (`AgentCore.executeTask`) on it if present. -/
def processorTick (skillOutcome : Option (Except String String))
    (st : QState) (nowStart nowEnd : Nat) : QState :=
  match st.inMemoryQueue with
  | [] => st
  | taskId :: rest =>
    let st := { st with inMemoryQueue := rest }
    match getTask st taskId with
    | some task => executeTask skillOutcome st task nowStart nowEnd
    | none => st

/-! ### A concrete run of the system

A ledger with two successful transactions, each a USDC transfer of
2.000000 base units from the payer to the agent, and a single `research`
task priced `"2"` USDC, driven through the public operations. -/

def usdcBase : String := "0x833589fCD6eDb6E08f4c7C32D4f71b54bdA02913"

def agentAddr : String := "0xaaaaaaaaaaaaaaaaaaaaaaaaaaaaaaaaaaaaaaaa"

def payerAddr : String := "0xbbbbbbbbbbbbbbbbbbbbbbbbbbbbbbbbbbbbbbbb"

def payerTopic : String :=
  "0x000000000000000000000000bbbbbbbbbbbbbbbbbbbbbbbbbbbbbbbbbbbbbbbb"

def agentTopic : String :=
  "0x000000000000000000000000aaaaaaaaaaaaaaaaaaaaaaaaaaaaaaaaaaaaaaaa"

def usdcTransferTo (recipientTopic : String) (amount : Nat) : TxLog :=
  { address := usdcBase, topics := [TRANSFER_SIG, payerTopic, recipientTopic],
    data := amount }

def receiptPaying (amount : Nat) : TxReceipt :=
  { status := "success", logs := [usdcTransferTo agentTopic amount] }

def ledger1 : String → Option TxReceipt := fun h =>
  if h = "0xtx1" then some (receiptPaying 2000000)
  else if h = "0xtx2" then some (receiptPaying 2000000)
  else none

def d0 : CreateTaskData :=
  { channel := "web", channelMessageId := "m1", senderId := "alice",
    description := "find the best taco in town", category := "research",
    priceUsdc := "2" }

def s0 : QState := { useInMemory := true }

/-- After `createTask`: the task is `pending_payment`. -/
def s1 : QState := (createTask s0 d0 "task1" 100).1

/-- After a valid payment proof for `0xtx1`: the task is `paid` and
enqueued. -/
def s2 : QState :=
  (handlePaymentVerification ledger1 usdcBase agentAddr s1 "PAYMENT:task1:0xtx1" 200).1

/-- The scheduler executes the task successfully. -/
def s3 : QState := processorTick (some (.ok "the report")) s2 300 301

/-- The payer (or anyone) submits a second valid proof, `0xtx2`, for the
already-completed task. -/
def s4 : QState :=
  (handlePaymentVerification ledger1 usdcBase agentAddr s3 "PAYMENT:task1:0xtx2" 400).1

/-- A second valid proof submitted while the task is still `paid`. -/
def s2b : QState :=
  (handlePaymentVerification ledger1 usdcBase agentAddr s2 "PAYMENT:task1:0xtx2" 400).1

/-- The scheduler executes the task and the skill throws `"boom"`. -/
def sF : QState := processorTick (some (.error "boom")) s2 300 301

/-- A second valid proof for the failed task: it is `paid` again and
re-enqueued. -/
def sG : QState :=
  (handlePaymentVerification ledger1 usdcBase agentAddr sF "PAYMENT:task1:0xtx2" 400).1

/-- The re-run execution now succeeds. -/
def sH : QState := processorTick (some (.ok "the final report")) sG 500 501

set_option maxRecDepth 8000

/-- Claim C1 — refuted by the code (code bug): `handlePaymentVerification`
never inspects the task's current status, so a second valid payment proof
submitted for an already-completed task moves its status back to `paid`,
regressing the `pending_payment → paid → in_progress → completed/failed`
order the spec declares monotonic. -/
theorem completed_task_regresses_to_paid_on_repeated_proof :
    (getTask s3 "task1").map Task.status = some .completed ∧
    (verifyPayment ledger1 usdcBase agentAddr "0xtx2" "2" none).valid = true ∧
    (getTask s4 "task1").map Task.status = some .paid := by
  decide

/-- Claim C2 — refuted by the code (code bug): a second valid payment proof
for a task that is already `paid` overwrites `paidTxHash` and `paidAt`,
so the fields are neither written only from `pending_payment` nor written
exactly once. -/
theorem paid_fields_rewritten_by_second_payment_proof :
    (getTask s2 "task1").map Task.status = some .paid ∧
    Option.bind (getTask s2 "task1") Task.paidTxHash = some "0xtx1" ∧
    Option.bind (getTask s2b "task1") Task.paidTxHash = some "0xtx2" ∧
    Option.bind (getTask s2b "task1") Task.paidAt = some 400 := by
  decide

/-- Claim C3 — refuted by the code (code bug): after a failed execution
(`error` set), a repeated payment proof re-enqueues the task and the
successful re-run sets `deliverable` without clearing the stale `error`
(`updateTask` merges partial updates), leaving a `completed` task with
both `deliverable` and `error` populated. -/
theorem completed_task_retains_stale_error_after_retry :
    (getTask sF "task1").map Task.status = some .failed ∧
    Option.bind (getTask sF "task1") Task.error = some "boom" ∧
    (getTask sH "task1").map Task.status = some .completed ∧
    Option.bind (getTask sH "task1") Task.deliverable = some "the final report" ∧
    Option.bind (getTask sH "task1") Task.error = some "boom" := by
  decide

/-! ### Claims about the payment verifier -/

/-- A ledger holding one successful transaction `0xtx5` that transfers
exactly 5.000000 USDC base units to the agent. -/
def ledger5 : String → Option TxReceipt := fun h =>
  if h = "0xtx5" then some (receiptPaying 5000000) else none

/-- Claim C4 — confirmed: when the receipt succeeded and its first matching
stablecoin Transfer log pays the agent's address, an amount strictly below
`expectedAmount` in base units yields `valid:false` with the insufficient
payment error, while an amount equal to or above it (with the sender check
passing when `expectedSender` is supplied) yields `valid:true`. -/
theorem verifyPayment_insufficient_iff_below_expected
    (getReceipt : String → Option TxReceipt) (usdc acct tx ea : String)
    (es : Option String) (r : TxReceipt) (l : TxLog)
    (hr : getReceipt tx = some r) (hs : r.status = "success")
    (hf : r.logs.find? (isTransferLog usdc) = some l)
    (hrec : jsToLower (decodeTopicAddr l.topics 2) = jsToLower acct) :
    (l.data < parseUnits ea USDC_DECIMALS →
      verifyPayment getReceipt usdc acct tx ea es =
        { valid := false,
          error := some ("Insufficient payment: received " ++
            formatUnits l.data USDC_DECIMALS ++ " USDC, expected " ++ ea ++ " USDC") }) ∧
    (parseUnits ea USDC_DECIMALS ≤ l.data →
      (∀ s, es = some s → jsToLower (decodeTopicAddr l.topics 1) = jsToLower s) →
      (verifyPayment getReceipt usdc acct tx ea es).valid = true) := by
  constructor
  · intro hlt
    simp [verifyPayment, hr, hs, hf, hrec, hlt]
  · intro hge hsender
    have hnlt : ¬ (l.data < parseUnits ea USDC_DECIMALS) := not_lt.mpr hge
    cases es with
    | none => simp [verifyPayment, hr, hs, hf, hrec, hnlt]
    | some s =>
      have := hsender s rfl
      simp [verifyPayment, hr, hs, hf, hrec, hnlt, this]

theorem verifyPayment_insufficient_iff_below_expected_witness :
    (parseUnits "5.00" USDC_DECIMALS ≤ 5000000 ∧
      parseUnits "5.01" USDC_DECIMALS > 5000000) ∧
    (verifyPayment ledger5 usdcBase agentAddr "0xtx5" "5.00" none).valid = true ∧
    verifyPayment ledger5 usdcBase agentAddr "0xtx5" "5.01" none =
      { valid := false,
        error := some ("Insufficient payment: received " ++
          formatUnits 5000000 USDC_DECIMALS ++ " USDC, expected " ++ "5.01" ++ " USDC") } :=
  ⟨by decide,
    (verifyPayment_insufficient_iff_below_expected ledger5 usdcBase agentAddr "0xtx5"
      "5.00" none (receiptPaying 5000000) (usdcTransferTo agentTopic 5000000)
      (by decide) (by decide) (by decide) (by decide)).2
      (by decide) (fun s h => nomatch h),
    (verifyPayment_insufficient_iff_below_expected ledger5 usdcBase agentAddr "0xtx5"
      "5.01" none (receiptPaying 5000000) (usdcTransferTo agentTopic 5000000)
      (by decide) (by decide) (by decide) (by decide)).1 (by decide)⟩

/-- Claim C5 — confirmed: `verifyPayment` is a total function into the
structured `PaymentVerification` result and every invalid result carries an
error message; and when verification of a proof fails,
`handlePaymentVerification` returns the state unchanged (no task field is
mutated) with the verifier's error reason in the reply. -/
theorem failed_verification_is_structured_and_preserves_task :
    (∀ (getReceipt : String → Option TxReceipt) (usdc acct tx ea : String)
        (es : Option String),
      (verifyPayment getReceipt usdc acct tx ea es).valid = true ∨
      (verifyPayment getReceipt usdc acct tx ea es).error.isSome = true) ∧
    (∀ (getReceipt : String → Option TxReceipt) (usdc acct : String)
        (st : QState) (content : String) (now : Nat) (task : Task),
      3 ≤ (jsSplit content ':').length →
      getTask st ((jsSplit content ':').getD 1 "") = some task →
      (verifyPayment getReceipt usdc acct ((jsSplit content ':').getD 2 "")
          task.priceUsdc none).valid = false →
      handlePaymentVerification getReceipt usdc acct st content now =
        (st, { content := "Payment verification failed: " ++
          jsShow (verifyPayment getReceipt usdc acct ((jsSplit content ':').getD 2 "")
            task.priceUsdc none).error })) := by
  constructor
  · intro getReceipt usdc acct tx ea es
    unfold verifyPayment
    repeat' split
    all_goals simp only [apply_ite PaymentVerification.valid, apply_ite PaymentVerification.error]
    all_goals (try split_ifs) <;> simp
  · intro getReceipt usdc acct st content now task hlen hget hv
    unfold handlePaymentVerification
    have hnl : ¬ ((jsSplit content ':').length < 3) := not_lt.mpr hlen
    simp only [if_neg hnl, hget, hv]
    simp

/-- The task created in `s1`, as `createTask` returned it. -/
def task1val : Task := (createTask s0 d0 "task1" 100).2

theorem failed_verification_is_structured_and_preserves_task_witness :
    getTask s1 "task1" = some task1val ∧
    handlePaymentVerification ledger1 usdcBase agentAddr s1 "PAYMENT:task1:0xbad" 500 =
      (s1, { content := "Payment verification failed: " ++
        jsShow (verifyPayment ledger1 usdcBase agentAddr "0xbad"
          task1val.priceUsdc none).error }) :=
  ⟨by decide,
    failed_verification_is_structured_and_preserves_task.2 ledger1 usdcBase agentAddr
      s1 "PAYMENT:task1:0xbad" 500 task1val (by decide) (by decide) (by decide)⟩

/-- Claim C10 — confirmed: `verifyPayment` decodes only the first log whose
contract is the stablecoin and whose first topic is the Transfer
signature; if that log's recipient is not the agent, the result is the
wrong-address failure regardless of any later logs in the receipt. -/
theorem verifyPayment_uses_first_matching_transfer_log
    (getReceipt : String → Option TxReceipt) (usdc acct tx ea : String)
    (es : Option String) (r : TxReceipt) (l : TxLog) (rest : List TxLog)
    (hr : getReceipt tx = some r) (hs : r.status = "success")
    (hlogs : r.logs = l :: rest) (hl : isTransferLog usdc l = true)
    (hrec : jsToLower (decodeTopicAddr l.topics 2) ≠ jsToLower acct) :
    verifyPayment getReceipt usdc acct tx ea es =
      { valid := false, error := some "Payment sent to wrong address" } := by
  have hf : r.logs.find? (isTransferLog usdc) = some l := by
    rw [hlogs]; simp [List.find?_cons_of_pos, hl]
  simp [verifyPayment, hr, hs, hf, hrec]

/-- A topic encoding a third address, distinct from the agent's. -/
def otherTopic : String :=
  "0x000000000000000000000000cccccccccccccccccccccccccccccccccccccccc"

/-- A successful receipt whose first matching Transfer log pays someone
else, while its second Transfer log pays the agent 5.000000 USDC. -/
def receiptTwoTransfers : TxReceipt :=
  { status := "success",
    logs := [usdcTransferTo otherTopic 5000000, usdcTransferTo agentTopic 5000000] }

def ledgerTwo : String → Option TxReceipt := fun h =>
  if h = "0xtwo" then some receiptTwoTransfers else none

theorem verifyPayment_uses_first_matching_transfer_log_witness :
    (isTransferLog usdcBase (usdcTransferTo agentTopic 5000000) = true ∧
      jsToLower (decodeTopicAddr (usdcTransferTo agentTopic 5000000).topics 2) =
        jsToLower agentAddr ∧
      parseUnits "5.00" USDC_DECIMALS ≤ 5000000) ∧
    verifyPayment ledgerTwo usdcBase agentAddr "0xtwo" "5.00" none =
      { valid := false, error := some "Payment sent to wrong address" } :=
  ⟨by decide,
    verifyPayment_uses_first_matching_transfer_log ledgerTwo usdcBase agentAddr "0xtwo"
      "5.00" none receiptTwoTransfers (usdcTransferTo otherTopic 5000000)
      [usdcTransferTo agentTopic 5000000]
      (by decide) (by decide) (by decide) (by decide) (by decide)⟩

/-- Claim C9 — counterexample: verifying the receipt that transfers exactly
5.000000 USDC base units to the agent with `expectedAmount = "5.00"`
succeeds, but the reported `amount` is not the string `"5.00"` (viem's
`formatUnits` trims trailing fractional zeros). -/
theorem verifyPayment_five_usdc_amount_is_not_5point00 :
    (verifyPayment ledger5 usdcBase agentAddr "0xtx5" "5.00" none).valid = true ∧
    (verifyPayment ledger5 usdcBase agentAddr "0xtx5" "5.00" none).amount ≠ some "5.00" := by
  decide

/-- Claim C9 — amended: the same verification returns `valid:true` with
`amount = "5"`: `formatUnits(5000000, 6)` renders the exact amount with
its trailing fractional zeros trimmed. -/
theorem verifyPayment_five_usdc_returns_amount_5 :
    verifyPayment ledger5 usdcBase agentAddr "0xtx5" "5.00" none =
      { valid := true, sender := some payerAddr, amount := some "5" } := by
  decide

/-! ### Claims about the pricing engine -/

/-- Claim C6 — confirmed: the returned total is the rounded sum of the
returned breakdown amounts floored at 1.00, hence always at least 1.00,
and an unknown category prices exactly like `other`. -/
theorem pricing_total_is_rounded_sum_floored
    (category : String) (complexity : Complexity) (estimatedTokens : Nat)
    (toolsRequired : List String) :
    (calculate category complexity estimatedTokens toolsRequired).total =
      max (jsRound (sumAmounts
        (calculate category complexity estimatedTokens toolsRequired).breakdown * 100) / 100) 1 ∧
    1 ≤ (calculate category complexity estimatedTokens toolsRequired).total ∧
    (BASE_PRICES category = none →
      (calculate category complexity estimatedTokens toolsRequired).total =
        (calculate "other" complexity estimatedTokens toolsRequired).total) := by
  refine ⟨rfl, ?_, ?_⟩
  · exact le_max_right _ _
  · intro h
    have hb : basePriceFor category = 5 := by rw [basePriceFor, h]; rfl
    have hb2 : basePriceFor "other" = 5 := by with_unfolding_all rfl
    simp [calculate, hb, hb2, sumAmounts]

theorem pricing_total_is_rounded_sum_floored_witness :
    BASE_PRICES "translation" = none ∧
    1 ≤ (calculate "translation" Complexity.medium 5000 ["exa-mcp"]).total ∧
    (calculate "translation" Complexity.medium 5000 ["exa-mcp"]).total =
      (calculate "other" Complexity.medium 5000 ["exa-mcp"]).total :=
  ⟨by decide,
    (pricing_total_is_rounded_sum_floored "translation" Complexity.medium 5000
      ["exa-mcp"]).2.1,
    (pricing_total_is_rounded_sum_floored "translation" Complexity.medium 5000
      ["exa-mcp"]).2.2 (by decide)⟩

/-- No breakdown line produced from a tool name can be the extended-output
line: every tool with a positive cost in `TOOL_COSTS` yields one of five
fixed item strings. -/
lemma stripMcp_ne_ext (t : String) (c : ℚ) (h : TOOL_COSTS t = some c) :
    stripMcp t ≠ "extended output" := by
  unfold TOOL_COSTS at h
  split_ifs at h with h1 h2 h3 h4 h5 h6
  · subst h1; decide
  · subst h2; decide
  · subst h3; decide
  · subst h4; decide
  · subst h5; decide
  · subst h6; decide

lemma toolLineFor_item (t : String) (line : PriceLine) (h : toolLineFor t = some line) :
    line.item ≠ "extended output" := by
  cases hTC : TOOL_COSTS t with
  | none => unfold toolLineFor at h; rw [hTC] at h; exact Option.noConfusion h
  | some c =>
    unfold toolLineFor at h
    rw [hTC] at h
    dsimp only at h
    split_ifs at h
    cases Option.some.inj h
    exact stripMcp_ne_ext t c hTC

/-- The base line's item always ends in `" base"`, so it is never the
extended-output line. -/
lemma base_item_ne_ext (cat : String) : cat ++ " base" ≠ "extended output" := by
  intro h
  have hd : cat.data ++ (" base" : String).data = ("extended output" : String).data :=
    congrArg String.data h
  have hlen : cat.data.length + 5 = 15 := by
    have := congrArg List.length hd
    simpa using this
  have hdrop := congrArg (List.drop cat.data.length) hd
  rw [List.drop_left] at hdrop
  have h10 : cat.data.length = 10 := by omega
  rw [h10] at hdrop
  exact absurd hdrop (by decide)

lemma complexity_item_ne_ext (cx : Complexity) :
    cx.toString ++ " complexity" ≠ "extended output" := by
  cases cx <;> decide

/-- Claim C7 — counterexample: at `estimatedTokens = 4001` (which is
`> 4000`) the breakdown contains no "extended output" line at all:
`Math.round((4001-4000) * 0.0001 * 100) = Math.round(0.01) = 0`, and the
zero cost is dropped by the `tokenCost > 0` guard. -/
theorem extended_output_line_missing_at_4001 :
    4000 < 4001 ∧
    ∀ b ∈ (calculate "research" Complexity.simple 4001 []).breakdown,
      b.item ≠ "extended output" := by
  with_unfolding_all decide

/-- Claim C7 — amended: for `estimatedTokens > 4000`, the breakdown contains
the "extended output" line of `(estimatedTokens - 4000) * 0.0001` rounded
to the cent exactly when that rounded amount is positive (that is, when
`estimatedTokens ≥ 4050`); for 4001–4049 it rounds to zero and the line is
omitted. -/
theorem extended_output_line_iff_positive_cost
    (category : String) (complexity : Complexity) (estimatedTokens : Nat)
    (toolsRequired : List String) (htok : 4000 < estimatedTokens) :
    (PriceLine.mk "extended output" (tokenCostOf estimatedTokens) ∈
      (calculate category complexity estimatedTokens toolsRequired).breakdown) ↔
    0 < tokenCostOf estimatedTokens := by
  constructor
  · intro hmem
    by_contra hc
    simp only [calculate, htok, if_true, if_pos htok, if_neg hc] at hmem
    simp only [List.mem_cons, List.mem_append, List.append_nil] at hmem
    rcases hmem with h1 | hmem
    · exact base_item_ne_ext category (congrArg PriceLine.item h1).symm
    rcases hmem with h2 | h3
    · by_cases hadj : 0 < basePriceFor category * (COMPLEXITY_MULTIPLIERS complexity - 1)
      · rw [if_pos hadj] at h2
        simp only [List.mem_singleton] at h2
        exact complexity_item_ne_ext complexity (congrArg PriceLine.item h2).symm
      · rw [if_neg hadj] at h2
        simp at h2
    · rcases List.mem_filterMap.mp h3 with ⟨t, _, hline⟩
      exact toolLineFor_item t _ hline rfl
  · intro hpos
    simp [calculate, htok, hpos]

theorem extended_output_line_iff_positive_cost_witness :
    (4000 < 4050 ∧ 0 < tokenCostOf 4050) ∧
    (PriceLine.mk "extended output" (tokenCostOf 4050) ∈
      (calculate "research" Complexity.simple 4050 []).breakdown) :=
  ⟨⟨by decide, by with_unfolding_all decide⟩,
    (extended_output_line_iff_positive_cost "research" Complexity.simple 4050 []
      (by decide)).mpr (by with_unfolding_all decide)⟩

/-! ### Claims about the dual-mode task store -/

/-- The same operation sequence — create a task, then update it with
`deliverable: ""` — replayed in the in-memory mode. -/
def memRun : Option Task :=
  let st := (createTask { useInMemory := true } d0 "taskA" 100).1
  let st := (updateTask st "taskA" { deliverable := some "" } 200).1
  getTask st "taskA"

/-- The same sequence replayed in the redis-backed mode. -/
def redRun : Option Task :=
  let st := (createTask { useInMemory := false } d0 "taskA" 100).1
  let st := (updateTask st "taskA" { deliverable := some "" } 200).1
  getTask st "taskA"

/-- Claim C8 — counterexample: the two modes are observably different.
Updating a task with an empty-string `deliverable` and reading it back
returns `deliverable = some ""` in memory mode but `deliverable = none` in
store mode: `serializeTask` writes the optional as `''` and
`deserializeTask` maps `''` back to absent, collapsing the distinction. -/
theorem store_modes_diverge_on_empty_deliverable :
    Option.bind memRun Task.deliverable = some "" ∧
    Option.bind redRun Task.deliverable = none ∧
    memRun.isSome = true ∧ redRun.isSome = true := by decide

/-- An optional string field that is not present-but-empty — the shapes
that `serializeTask`'s `''`-encoding represents faithfully. -/
def wfOptStr (o : Option String) : Prop := ∀ s, o = some s → s ≠ ""

def wfTask (t : Task) : Prop :=
  wfOptStr t.senderAddress ∧ wfOptStr t.paidTxHash ∧
  wfOptStr t.deliverable ∧ wfOptStr t.error

lemma wfOptStr_none : wfOptStr none := fun _ h => nomatch h

lemma statusRoundTrip (s : TaskStatus) : stringToStatus (statusToString s) = s := by
  cases s <;> rfl

lemma optStrRoundTrip (o : Option String) (wf : wfOptStr o) :
    (if o.getD "" = "" then none else some (o.getD "")) = o := by
  cases o with
  | none => simp
  | some s =>
    have : s ≠ "" := wf s rfl
    simp [this]

lemma optDateRoundTrip (o : Option Nat) :
    (if (o.map natToDec).getD "" = "" then none
     else some (decToNat ((o.map natToDec).getD ""))) = o := by
  cases o with
  | none => simp
  | some n =>
    simp [natToDec_ne_empty n, decToNat_natToDec n]

lemma serializeTask_roundTrip (t : Task) (wf : wfTask t) :
    deserializeTask (serializeTask t) = t := by
  obtain ⟨w1, w2, w3, w4⟩ := wf
  cases t with
  | mk id status channel channelMessageId senderId senderAddress description category
      priceUsdc paidTxHash paidAt startedAt completedAt deliverable error createdAt updatedAt =>
    simp only [serializeTask, deserializeTask] at *
    congr 1 <;>
      first
        | exact statusRoundTrip _
        | exact optStrRoundTrip _ (by assumption)
        | exact optDateRoundTrip _
        | exact decToNat_natToDec _

lemma alistGet_alistSet {α : Type} (m : List (String × α)) (k : String) (v : α) :
    alistGet (alistSet m k v) k = some v := by
  induction m with
  | nil => simp [alistSet, alistGet]
  | cons p rest ih =>
    by_cases h : p.1 = k
    · simp [alistSet, h, alistGet]
    · simp only [alistSet, if_neg h]
      simp only [alistGet, List.find?] at ih ⊢
      have hb : (p.1 == k) = false := beq_false_of_ne h
      simp [hb, ih]

/-- Claim C8 — amended: the serialize/deserialize round-trip of the
store-backed mode is the identity on every task whose present optional
string fields are non-empty (absent optionals included), and under the
same proviso on `senderAddress`, `createTask` followed by `getTask` of the
created id returns exactly the created task in both modes, which create
identical tasks.  Full observable equivalence of the two modes holds only
under that proviso: a present-but-empty optional string is preserved in
memory mode but collapses to absent through the store encoding. -/
theorem store_modes_agree_on_nonempty_optionals :
    (∀ t : Task, wfTask t → deserializeTask (serializeTask t) = t) ∧
    (∀ (d : CreateTaskData) (id : String) (now : Nat) (stM stR : QState),
      stM.useInMemory = true → stR.useInMemory = false → wfOptStr d.senderAddress →
      getTask (createTask stM d id now).1 id = some (createTask stM d id now).2 ∧
      getTask (createTask stR d id now).1 id = some (createTask stR d id now).2 ∧
      (createTask stM d id now).2 = (createTask stR d id now).2) := by
  refine ⟨serializeTask_roundTrip, ?_⟩
  intro d id now stM stR hM hR hwf
  refine ⟨?_, ?_, ?_⟩
  · simp [createTask, getTask, hM, alistGet_alistSet]
  · simp [createTask, getTask, hR, alistGet_alistSet]
    exact serializeTask_roundTrip _ ⟨hwf, wfOptStr_none, wfOptStr_none, wfOptStr_none⟩
  · simp [createTask, hM, hR]

theorem store_modes_agree_on_nonempty_optionals_witness :
    deserializeTask (serializeTask task1val) = task1val ∧
    getTask (createTask { useInMemory := false } d0 "task1" 100).1 "task1" =
      some (createTask { useInMemory := false } d0 "task1" 100).2 :=
  ⟨store_modes_agree_on_nonempty_optionals.1 task1val
      ⟨wfOptStr_none, wfOptStr_none, wfOptStr_none, wfOptStr_none⟩,
    (store_modes_agree_on_nonempty_optionals.2 d0 "task1" 100 { useInMemory := true }
      { useInMemory := false } rfl rfl wfOptStr_none).2.1⟩

end AgentBounty
